import Mathlib

/-!
Verification of the `sdl` package of Zwobot/Go-SDL (src/sdl/sdl.go,
src/sdl/gfx.go) against its design description.

Modelling conventions.  Foreign (C) memory is embedded by value: a
non-null `*C.SDL_Surface` is `some c` where `c : CSurface` holds the
contents of the struct at that instant, and the null pointer is `none`.
Native SDL calls are opaque to the binding, so the model records which
call was made and with which arguments (`NativeCall`); where a native
result flows back into the binding, that result is a parameter of the
modelled function.  Lock and unlock operations of `Surface.Blit` are
recorded in program order as `LockEvent`s.  Go `uint` fields are `Nat`,
signed fields are `Int`; every copy the binding makes between them is an
identity conversion in the source.
-/

/-- Go `reflect.Kind` values as distinguished by `CreateRGBSurfaceFrom`
(src/sdl/sdl.go:648): the three kinds of its `case` line (`Ptr`,
`UnsafePointer`, `Slice`) and a sample of the other kinds a caller
could put into the `pixels interface\x7b\x7d` argument. -/
inductive GoKind where
  | ptr
  | uptr
  | slice
  | arrayK
  | structK
  | mapK
  | chanK
  | intK
  | stringK
  | boolK
  | funcK
deriving DecidableEq

/-- What Go `reflect.Kind.String()` returns for each kind above. -/
def GoKind.name : GoKind → String
  | .ptr => "ptr"
  | .uptr => "unsafe.Pointer"
  | .slice => "slice"
  | .arrayK => "array"
  | .structK => "struct"
  | .mapK => "map"
  | .chanK => "chan"
  | .intK => "int"
  | .stringK => "string"
  | .boolK => "bool"
  | .funcK => "func"

/-- A Go `interface\x7b\x7d` value passed as the `pixels` argument of
`CreateRGBSurfaceFrom`: its reflect kind and the address that
`reflect.Value.Pointer()` reports for it. -/
structure PixelsValue where
  kind : GoKind
  addr : Nat
deriving DecidableEq

/-- The fields of the C `SDL_Surface` struct that the binding reads
(src/sdl/sdl.go:81-87): flags, format pointer, geometry, pitch, pixel
pointer and offset.  `format` and `pixels` are foreign pointers,
modelled as optional addresses. -/
structure CSurface where
  flags : Nat
  format : Option Nat
  w : Int
  h : Int
  pitch : Nat
  pixels : Option Nat
  offset : Int
deriving DecidableEq

/-- The C `SDL_Rect` struct (`x, y : Sint16`, `w, h : Uint16`) as read
by `ListModes`. -/
structure CRect where
  x : Int
  y : Int
  w : Nat
  h : Nat
deriving DecidableEq

/-- The Go `Rect` struct (`X, Y int16`, `W, H uint16`).  `Rect` is
declared in the repository outside the staged files; its fields here
are exactly the ones `ListModes` (src/sdl/sdl.go:270-273) assigns and
the rectangle arguments the blit and fill calls forward. -/
structure Rect where
  X : Int
  Y : Int
  W : Nat
  H : Nat
deriving DecidableEq

/-- The Go `Surface` struct (src/sdl/sdl.go:43): the foreign pointer
`cSurface`, the shadow fields `Flags, Format, W, H, Pitch, Pixels,
Offset`, and `gcPixels`, the retained caller buffer of
`CreateRGBSurfaceFrom`.  The per-handle `sync.RWMutex` carries no data;
its acquisitions appear as `LockEvent`s where a claim needs them. -/
structure Surface where
  cSurface : Option CSurface
  Flags : Nat
  Format : Option Nat
  W : Int
  H : Int
  Pitch : Nat
  Pixels : Option Nat
  Offset : Int
  gcPixels : Option PixelsValue
deriving DecidableEq

/-- The Go zero value `var surface Surface` allocated by `wrap`
(src/sdl/sdl.go:62). -/
def zeroSurface : Surface :=
  { cSurface := none, Flags := 0, Format := none, W := 0, H := 0,
    Pitch := 0, Pixels := none, Offset := 0, gcPixels := none }

/-- A call into the native SDL library together with the arguments the
binding passes.  A surface argument carries the Go side's `cSurface`
value; `none` is the null pointer. -/
inductive NativeCall where
  | upperBlit (src : Option CSurface) (srcrect : Option Rect)
      (dst : Option CSurface) (dstrect : Option Rect)
  | fillRect (dst : Option CSurface) (dstrect : Option Rect) (color : Nat)
  | lockSurface (screen : Option CSurface)
  | freeSurface (screen : Option CSurface)
  | createRGBSurfaceFrom (pixels : Nat) (w h bpp pitch : Int) (rm gm bm am : Nat)
deriving DecidableEq

/-- The field-copy body of `Surface.reload` (src/sdl/sdl.go:81-87):
every shadow field is pulled from the pointed-to C struct `c`. -/
def Surface.reloadFrom (s : Surface) (c : CSurface) : Surface :=
  { s with Flags := c.flags, Format := c.format, W := c.w, H := c.h,
           Pitch := c.pitch, Pixels := c.pixels, Offset := c.offset }

/-- `Surface.reload` (src/sdl/sdl.go:80): dereferences `s.cSurface` and
copies the fields.  On a null `cSurface` the Go code would fault (nil
pointer dereference); the model returns `none` for that fault. -/
def Surface.reload (s : Surface) : Option Surface :=
  s.cSurface.map s.reloadFrom

/-- `Surface.SetCSurface` (src/sdl/sdl.go:73): stores the foreign
pointer and reloads.  Its callers pass a non-null pointer, where
`reload` cannot fault, so the reload is inlined. -/
def Surface.SetCSurface (s : Surface) (c : CSurface) : Surface :=
  Surface.reloadFrom { s with cSurface := some c } c

/-- `Surface.destroy` (src/sdl/sdl.go:90): nulls the foreign pointer,
`Format`, `Pixels` and the retained `gcPixels` reference.  It does not
touch `Flags`, `W`, `H`, `Pitch` or `Offset`, and it does not read or
write `currentVideoSurface`. -/
def Surface.destroy (s : Surface) : Surface :=
  { s with cSurface := none, Format := none, Pixels := none, gcPixels := none }

/-- `wrap` (src/sdl/sdl.go:58): the null pointer gives no handle
(`none`, the nil `*Surface`); otherwise a fresh zero-valued `Surface`
is allocated and `SetCSurface` populates its shadow. -/
def wrap (cSurface : Option CSurface) : Option Surface :=
  cSurface.map (fun c => Surface.SetCSurface zeroSurface c)

/-- The package-level mutable state of `sdl`: the `Surface` values
allocated so far, addressed by allocation index (Go compares `*Surface`
handles by pointer identity, so an index stands for a pointer), and
`currentVideoSurface` (src/sdl/sdl.go:211), `none` when nil. -/
structure SdlState where
  heap : List Surface
  current : Option Nat
deriving DecidableEq

/-- Replace the surface at index `i` by `f` of it (Go mutates the
pointed-to `Surface` in place; the model rebuilds the heap). -/
def updateAt (l : List Surface) (i : Nat) (f : Surface → Surface) : List Surface :=
  match l, i with
  | [], _ => []
  | s :: t, 0 => f s :: t
  | s :: t, n + 1 => s :: updateAt t n f

/-- `screen.destroy()` as a step on the package state: only the fields
of surface `i` change (src/sdl/sdl.go:90-95). -/
def SdlState.destroyAt (st : SdlState) (i : Nat) : SdlState :=
  { st with heap := updateAt st.heap i Surface.destroy }

/-- `Surface.Free` (src/sdl/sdl.go:422): under both locks, calls
`SDL_FreeSurface` with the (pre-destroy) foreign pointer, then
`destroy()`, then clears `currentVideoSurface` when the freed handle is
the one it points to. -/
def SdlState.Free (st : SdlState) (i : Nat) : SdlState × NativeCall :=
  let c := (st.heap.get? i).bind Surface.cSurface
  let st1 := st.destroyAt i
  (if st1.current = some i then { st1 with current := none } else st1,
   NativeCall.freeSurface c)

/-- `SetVideoMode` (src/sdl/sdl.go:216): the result `screen` of the
native `SDL_SetVideoMode` call is a parameter.  Under the global mutex,
`currentVideoSurface = wrap(screen)` replaces the slot unconditionally
(a fresh allocation when `screen` is non-null, nil otherwise) and the
new occupant is returned. -/
def SdlState.SetVideoMode (st : SdlState) (screen : Option CSurface) :
    SdlState × Option Nat :=
  match wrap screen with
  | none => ({ st with current := none }, none)
  | some s =>
      ({ heap := st.heap ++ [s], current := some st.heap.length },
       some st.heap.length)

/-- `GetVideoSurface` (src/sdl/sdl.go:225): reads
`currentVideoSurface` under the global mutex. -/
def SdlState.GetVideoSurface (st : SdlState) : Option Nat :=
  st.current

/-- The result of the native `SDL_ListModes` call as the binding
inspects it (src/sdl/sdl.go:247-263): the null pointer, the
`(SDL_Rect **)(-1)` wildcard, or a pointer to successive `SDL_Rect*`
cells, each cell holding the pointed-to struct by value (`none` for a
null cell; the real array is terminated by one). -/
inductive CModesPtr where
  | nullPtr
  | minusOne
  | arrayPtr (cells : List (Option CRect))
deriving DecidableEq

/-- The two loops of `ListModes` (src/sdl/sdl.go:259-274) composed: the
first counts the cells before the first null entry, the second
dereferences exactly those cells in array order; together they produce
the non-null prefix of the cell list. -/
def scanModes : List (Option CRect) → List CRect
  | [] => []
  | none :: _ => []
  | some r :: rest => r :: scanModes rest

/-- `ListModes` (src/sdl/sdl.go:246).  A Go nil slice is `none`, a
non-nil slice is `some` of its elements: the null pointer yields
`make([]Rect, 0)` (empty, non-nil), the wildcard yields nil, and an
array yields one decoded `Rect` per counted cell, copying x, y, w, h. -/
def ListModes (modes : CModesPtr) : Option (List Rect) :=
  match modes with
  | .nullPtr => some []
  | .minusOne => none
  | .arrayPtr cells =>
      some ((scanModes cells).map (fun r => { X := r.x, Y := r.y, W := r.w, H := r.h }))

/-- The pixel-shape switch of `CreateRGBSurfaceFrom`
(src/sdl/sdl.go:648-653): `Ptr`, `UnsafePointer` and `Slice` yield
`v.Pointer()`; every other kind panics with a message naming the kind
received.  `Except.error` is the Go panic. -/
def pixelsPtr (pixels : PixelsValue) : Except String Nat :=
  match pixels.kind with
  | .ptr => .ok pixels.addr
  | .uptr => .ok pixels.addr
  | .slice => .ok pixels.addr
  | k => .error ("Don\x27t know how to handle type: " ++ k.name)

/-- The message of the Go runtime fault raised by writing a field of a
nil `*Surface`. -/
def goNilDerefMsg : String :=
  "runtime error: invalid memory address or nil pointer dereference"

/-- `CreateRGBSurfaceFrom` (src/sdl/sdl.go:646): runs the pixel-shape
switch, then the native call (whose result is the parameter `native`),
then `s := wrap(p); s.gcPixels = pixels`.  Returns the native calls
made, in order, and either the Go panic message or the result handle.
An unrecognized pixel kind panics before the native call; a null
`native` makes `wrap` return nil, so the `s.gcPixels` write faults. -/
def CreateRGBSurfaceFrom (pixels : PixelsValue) (w h bpp pitch : Int)
    (rm gm bm am : Nat) (native : Option CSurface) :
    List NativeCall × Except String (Option Surface) :=
  match pixelsPtr pixels with
  | .error msg => ([], .error msg)
  | .ok p =>
      let calls := [NativeCall.createRGBSurfaceFrom p w h bpp pitch rm gm bm am]
      match wrap native with
      | none => (calls, .error goNilDerefMsg)
      | some s => (calls, .ok (some { s with gcPixels := some pixels }))

/-- `Load` (src/sdl/sdl.go:610): `wrap` of the native `IMG_Load`
result. -/
def Load (native : Option CSurface) : Option Surface :=
  wrap native

/-- `CreateRGBSurface` (src/sdl/sdl.go:634): `wrap` of the native
result. -/
def CreateRGBSurface (native : Option CSurface) : Option Surface :=
  wrap native

/-- `Surface.DisplayFormat` (src/sdl/sdl.go:666): `wrap` of the native
`SDL_DisplayFormat` result, computed under the handle's shared lock. -/
def Surface.DisplayFormat (_s : Surface) (native : Option CSurface) : Option Surface :=
  wrap native

/-- `Surface.Zoom` (src/sdl/gfx.go:7): `wrap` of the native
`zoomSurface` result. -/
def Surface.Zoom (_s : Surface) (native : Option CSurface) : Option Surface :=
  wrap native

/-- Lock operations and the native call of `Surface.Blit`, in program
order. -/
inductive LockEvent where
  | acqGlobal
  | relGlobal
  | acqSrcShared
  | relSrcShared
  | acqDstExcl
  | relDstExcl
  | nativeBlit
deriving DecidableEq

/-- The locking skeleton of `Surface.Blit` (src/sdl/sdl.go:455-482):
`GlobalMutex.Lock()`; if neither participant is `currentVideoSurface`,
`GlobalMutex.Unlock()` at once and remember `global = false`; then
`src.mutex.RLock()`, `dst.mutex.Lock()`, the native blit,
`dst.mutex.Unlock()`, `src.mutex.RUnlock()`; finally
`GlobalMutex.Unlock()` when `global` is still true. -/
def blitTrace (srcIsCur dstIsCur : Bool) : List LockEvent :=
  let t0 := [LockEvent.acqGlobal]
  let p : List LockEvent × Bool :=
    if !srcIsCur && !dstIsCur then (t0 ++ [LockEvent.relGlobal], false) else (t0, true)
  let t2 := p.1 ++ [LockEvent.acqSrcShared, LockEvent.acqDstExcl,
                    LockEvent.nativeBlit, LockEvent.relDstExcl, LockEvent.relSrcShared]
  if p.2 then t2 ++ [LockEvent.relGlobal] else t2

/-- `Surface.Blit` (src/sdl/sdl.go:454).  The two pointer-identity
tests against `currentVideoSurface` are the parameters `srcIsCur` and
`dstIsCur`.  The result is the event trace and the native call made;
the Go function returns the int status of `SDL_UpperBlit` verbatim, a
function of that call. -/
def Surface.Blit (dst : Surface) (dstrect : Option Rect) (src : Surface)
    (srcrect : Option Rect) (srcIsCur dstIsCur : Bool) :
    List LockEvent × NativeCall :=
  (blitTrace srcIsCur dstIsCur,
   NativeCall.upperBlit src.cSurface srcrect dst.cSurface dstrect)

/-- `BlitSurface` (src/sdl/sdl.go:488): the body is exactly
`return dst.Blit(dstrect, src, srcrect)`. -/
def BlitSurface (src : Surface) (srcrect : Option Rect) (dst : Surface)
    (dstrect : Option Rect) (srcIsCur dstIsCur : Bool) :
    List LockEvent × NativeCall :=
  Surface.Blit dst dstrect src srcrect srcIsCur dstIsCur

/-- `Surface.FillRect` (src/sdl/sdl.go:493): under the handle's
exclusive lock, calls `SDL_FillRect` with the handle's (possibly null)
`cSurface`; no null check is performed and the status is returned
verbatim. -/
def Surface.FillRect (dst : Surface) (dstrect : Option Rect) (color : Nat) : NativeCall :=
  NativeCall.fillRect dst.cSurface dstrect color

/-- `Surface.Lock` (src/sdl/sdl.go:438): under the handle's exclusive
lock, calls `SDL_LockSurface` with the handle's (possibly null)
`cSurface`. -/
def Surface.Lock (screen : Surface) : NativeCall :=
  NativeCall.lockSurface screen.cSurface

/-- Whether a native call receives a null surface pointer. -/
def passesNullSurface : NativeCall → Bool
  | .upperBlit s _ d _ => s.isNone || d.isNone
  | .fillRect d _ _ => d.isNone
  | .lockSurface s => s.isNone
  | .freeSurface s => s.isNone
  | .createRGBSurfaceFrom .. => false

/-- A sample foreign surface struct with distinct non-zero fields. -/
def cEx : CSurface :=
  { flags := 1, format := some 2, w := 3, h := 4, pitch := 5,
    pixels := some 6, offset := 7 }

/-- A sample live handle: `wrap` applied to `cEx`. -/
def sEx : Surface :=
  Surface.SetCSurface zeroSurface cEx

/-- A sample package state: one allocated surface, occupying the
active-display slot. -/
def stEx : SdlState :=
  { heap := [sEx], current := some 0 }

/-- A sample destroyed handle. -/
def sDead : Surface :=
  Surface.destroy sEx

/-- Claim C1 as stated, at one call of `Surface.Blit`: when neither
participant is the active-display occupant the global lock is held at
no point (never acquired); when one is, the global lock brackets both
per-handle locks; and the per-handle locks are taken
destination-exclusive first, then source-shared, released in reverse
order. -/
def blitClaimC1 (dst : Surface) (dstrect : Option Rect) (src : Surface)
    (srcrect : Option Rect) (srcIsCur dstIsCur : Bool) : Prop :=
  (srcIsCur = false → dstIsCur = false →
      LockEvent.acqGlobal ∉ (Surface.Blit dst dstrect src srcrect srcIsCur dstIsCur).1)
  ∧ ((srcIsCur = true ∨ dstIsCur = true) →
      (Surface.Blit dst dstrect src srcrect srcIsCur dstIsCur).1.head?
          = some LockEvent.acqGlobal
      ∧ (Surface.Blit dst dstrect src srcrect srcIsCur dstIsCur).1.getLast?
          = some LockEvent.relGlobal)
  ∧ (Surface.Blit dst dstrect src srcrect srcIsCur dstIsCur).1.indexOf LockEvent.acqDstExcl
      < (Surface.Blit dst dstrect src srcrect srcIsCur dstIsCur).1.indexOf LockEvent.acqSrcShared
  ∧ (Surface.Blit dst dstrect src srcrect srcIsCur dstIsCur).1.indexOf LockEvent.relSrcShared
      < (Surface.Blit dst dstrect src srcrect srcIsCur dstIsCur).1.indexOf LockEvent.relDstExcl

/-- Claim C2 as stated, at one state and handle: after `destroy()` on
surface `i`, every shadow field of `i` is null or zero, and when `i`
occupied the active-display slot the slot is cleared. -/
def destroyClaimC2 (st : SdlState) (i : Nat) : Prop :=
  (((st.destroyAt i).heap.get? i).all (fun s =>
      s.cSurface.isNone && (s.Flags == 0) && s.Format.isNone && (s.W == 0)
        && (s.H == 0) && (s.Pitch == 0) && s.Pixels.isNone && (s.Offset == 0)
        && s.gcPixels.isNone) = true)
  ∧ (st.current = some i → (st.destroyAt i).current = none)

/-- Claim C3 as stated, at one call each of `Surface.FillRect` and
`Surface.Lock`: on a destroyed handle the operation does not pass the
null foreign pointer to the native call. -/
def nullHandleClaimC3 (s : Surface) (dstrect : Option Rect) (color : Nat) : Prop :=
  s.cSurface = none →
    passesNullSurface (Surface.FillRect s dstrect color) = false
    ∧ passesNullSurface (Surface.Lock s) = false

/-- The order facts of the corrected blit-locking protocol, as a
function of the two identity tests (the trace depends on nothing
else). -/
theorem blit_lock_protocol_core :
    ∀ sc dc : Bool,
      (blitTrace sc dc).head? = some LockEvent.acqGlobal
      ∧ (blitTrace sc dc).indexOf LockEvent.acqSrcShared
          < (blitTrace sc dc).indexOf LockEvent.acqDstExcl
      ∧ (blitTrace sc dc).indexOf LockEvent.relDstExcl
          < (blitTrace sc dc).indexOf LockEvent.relSrcShared
      ∧ ((sc || dc) = true →
          (blitTrace sc dc).getLast? = some LockEvent.relGlobal)
      ∧ ((sc || dc) = false →
          (blitTrace sc dc).indexOf LockEvent.relGlobal
              < (blitTrace sc dc).indexOf LockEvent.acqSrcShared
          ∧ (blitTrace sc dc).indexOf LockEvent.relGlobal
              < (blitTrace sc dc).indexOf LockEvent.nativeBlit) := by
  decide

/-- Claim C1, corrected: every `Surface.Blit` call acquires the global
lock first; when neither participant is the active-display occupant it
is released right after the occupancy check, before either per-handle
lock (so it is not held during the native blit); when one participant
is the occupant it is acquired before both per-handle locks and
released last; and the per-handle locks are taken source-shared first,
then destination-exclusive, released in reverse order. -/
theorem blit_lock_protocol (dst : Surface) (dstrect : Option Rect) (src : Surface)
    (srcrect : Option Rect) (srcIsCur dstIsCur : Bool) :
    (Surface.Blit dst dstrect src srcrect srcIsCur dstIsCur).1.head?
        = some LockEvent.acqGlobal
    ∧ (Surface.Blit dst dstrect src srcrect srcIsCur dstIsCur).1.indexOf LockEvent.acqSrcShared
        < (Surface.Blit dst dstrect src srcrect srcIsCur dstIsCur).1.indexOf LockEvent.acqDstExcl
    ∧ (Surface.Blit dst dstrect src srcrect srcIsCur dstIsCur).1.indexOf LockEvent.relDstExcl
        < (Surface.Blit dst dstrect src srcrect srcIsCur dstIsCur).1.indexOf LockEvent.relSrcShared
    ∧ ((srcIsCur || dstIsCur) = true →
        (Surface.Blit dst dstrect src srcrect srcIsCur dstIsCur).1.getLast?
            = some LockEvent.relGlobal)
    ∧ ((srcIsCur || dstIsCur) = false →
        (Surface.Blit dst dstrect src srcrect srcIsCur dstIsCur).1.indexOf LockEvent.relGlobal
            < (Surface.Blit dst dstrect src srcrect srcIsCur dstIsCur).1.indexOf LockEvent.acqSrcShared
        ∧ (Surface.Blit dst dstrect src srcrect srcIsCur dstIsCur).1.indexOf LockEvent.relGlobal
            < (Surface.Blit dst dstrect src srcrect srcIsCur dstIsCur).1.indexOf LockEvent.nativeBlit) :=
  blit_lock_protocol_core srcIsCur dstIsCur

/-- Claim C1 fails as stated: with neither participant the occupant,
the global lock is still acquired (and released) at the start of the
blit, and the per-handle order is source-shared before
destination-exclusive, not the other way around. -/
theorem blit_lock_claim_refuted :
    ¬ blitClaimC1 zeroSurface none zeroSurface none false false := by
  unfold blitClaimC1
  decide

/-- Claim C10, confirmed: `BlitSurface(src, srcrect, dst, dstrect)` is
defined as `dst.Blit(dstrect, src, srcrect)`, so the two public blit
entry points make the same native call with the same arguments and
produce the same lock-event trace (hence the same status and state
change). -/
theorem blit_entry_points_equiv (src : Surface) (srcrect : Option Rect)
    (dst : Surface) (dstrect : Option Rect) (srcIsCur dstIsCur : Bool) :
    BlitSurface src srcrect dst dstrect srcIsCur dstIsCur
      = Surface.Blit dst dstrect src srcrect srcIsCur dstIsCur :=
  rfl

/-- Updating index `i` changes `get?` exactly there, by the update
function. -/
theorem updateAt_get_same (l : List Surface) (i : Nat) (f : Surface → Surface) :
    (updateAt l i f).get? i = (l.get? i).map f := by
  induction l generalizing i with
  | nil => simp [updateAt]
  | cons a t ih =>
    cases i with
    | zero => simp [updateAt]
    | succ n => simpa [updateAt] using ih n

/-- Claim C2 fails as stated: destroying the surface that occupies the
active-display slot leaves `Flags, W, H, Pitch, Offset` at their old
values and leaves the slot pointing at the destroyed handle
(`destroy()` touches neither; `Free` and `Quit` clear the slot). -/
theorem destroy_claim_refuted : ¬ destroyClaimC2 stEx 0 := by
  unfold destroyClaimC2
  decide

/-- Claim C2, corrected: `destroy()` nulls the foreign pointer,
`Format`, `Pixels` and the retained `gcPixels` buffer reference and
changes nothing else — `Flags, W, H, Pitch, Offset` keep their values
and the active-display slot is untouched; the slot is cleared not by
`destroy()` but by its callers (`Free` clears it exactly when the freed
handle is the occupant, and process teardown does the same). -/
theorem destroy_shadow_and_slot (st : SdlState) (i : Nat) (s : Surface)
    (h : st.heap.get? i = some s) :
    (st.destroyAt i).heap.get? i
        = some { s with cSurface := none, Format := none, Pixels := none,
                        gcPixels := none }
    ∧ (st.destroyAt i).current = st.current
    ∧ (st.Free i).1.current = (if st.current = some i then none else st.current) := by
  refine ⟨?_, rfl, ?_⟩
  · show (updateAt st.heap i Surface.destroy).get? i = _
    rw [updateAt_get_same, h]
    rfl
  · by_cases hc : st.current = some i <;>
      simp [SdlState.Free, SdlState.destroyAt, hc]

/-- Witness for the corrected C2 at the sample state. -/
theorem destroy_shadow_and_slot_witness :
    stEx.heap.get? 0 = some sEx
    ∧ ((stEx.destroyAt 0).heap.get? 0
          = some { sEx with cSurface := none, Format := none, Pixels := none,
                            gcPixels := none }
       ∧ (stEx.destroyAt 0).current = stEx.current
       ∧ (stEx.Free 0).1.current
          = (if stEx.current = some 0 then none else stEx.current)) :=
  ⟨rfl, destroy_shadow_and_slot stEx 0 sEx rfl⟩

/-- Claim C9, confirmed: `destroy()` is a total, straight-line field
assignment, so it never faults; a second invocation on the destroyed
handle reproduces the destroyed state of the first exactly, and the
foreign pointer stays null. -/
theorem destroy_idempotent (s : Surface) :
    Surface.destroy (Surface.destroy s) = Surface.destroy s
    ∧ (Surface.destroy s).cSurface = none :=
  ⟨rfl, rfl⟩

/-- Claim C3 fails as stated: `FillRect` and `Lock` on a destroyed
handle do not fail early — each passes the null `cSurface` straight to
its native call. -/
theorem null_handle_claim_refuted : ¬ nullHandleClaimC3 sDead none 0 := by
  unfold nullHandleClaimC3
  decide

/-- Claim C3, corrected: a surface operation on a destroyed or
never-created handle performs no null check at all; the native call is
made with the null foreign pointer as its surface argument, so what
happens next is up to the native library. -/
theorem null_handle_passthrough (s : Surface) (dstrect : Option Rect) (color : Nat)
    (h : s.cSurface = none) :
    Surface.FillRect s dstrect color = NativeCall.fillRect none dstrect color
    ∧ Surface.Lock s = NativeCall.lockSurface none := by
  simp [Surface.FillRect, Surface.Lock, h]

/-- Witness for the corrected C3 at the sample destroyed handle. -/
theorem null_handle_passthrough_witness :
    sDead.cSurface = none
    ∧ (Surface.FillRect sDead none 0 = NativeCall.fillRect none none 0
       ∧ Surface.Lock sDead = NativeCall.lockSurface none) :=
  ⟨rfl, null_handle_passthrough sDead none 0 rfl⟩

/-- Scanning a list of non-null cells followed by the null terminator
yields exactly those cells. -/
theorem scanModes_map_some (entries : List CRect) :
    scanModes (entries.map some ++ [none]) = entries := by
  induction entries with
  | nil => rfl
  | cons r t ih => simpa [scanModes] using ih

/-- Claim C4, confirmed: `ListModes` maps the null pointer to the empty
(non-nil) slice, the minus-one wildcard to the nil slice — a value
never equal to the empty slice — and an array of N non-null record
pointers followed by a null terminator to exactly N entries, each
carrying the record x, y, w, h, in array order. -/
theorem listModes_decoder (entries : List CRect) :
    ListModes CModesPtr.nullPtr = some []
    ∧ ListModes CModesPtr.minusOne = none
    ∧ ListModes CModesPtr.minusOne ≠ ListModes CModesPtr.nullPtr
    ∧ ListModes (CModesPtr.arrayPtr (entries.map some ++ [none]))
        = some (entries.map (fun r => { X := r.x, Y := r.y, W := r.w, H := r.h }))
    ∧ (ListModes (CModesPtr.arrayPtr (entries.map some ++ [none]))).map List.length
        = some entries.length := by
  refine ⟨rfl, rfl, by simp [ListModes], ?_, ?_⟩
  · simp [ListModes, scanModes_map_some]
  · simp [ListModes, scanModes_map_some]

/-- Claim C6, confirmed: the pixel-shape switch of
`CreateRGBSurfaceFrom` accepts exactly a pointer, an unsafe pointer, or
a slice (Go slices are the sequence shape and carry the explicit
address and length); any other kind panics, before the native call is
made, with a message naming the kind actually received. -/
theorem createRGBSurfaceFrom_shape_check (p : PixelsValue) (w h bpp pitch : Int)
    (rm gm bm am : Nat) (native : Option CSurface) :
    ((p.kind = GoKind.ptr ∨ p.kind = GoKind.uptr ∨ p.kind = GoKind.slice) →
        pixelsPtr p = Except.ok p.addr)
    ∧ ((p.kind = GoKind.ptr ∨ p.kind = GoKind.uptr ∨ p.kind = GoKind.slice) ∨
        CreateRGBSurfaceFrom p w h bpp pitch rm gm bm am native
          = ([], Except.error ("Don\x27t know how to handle type: " ++ p.kind.name))) := by
  obtain ⟨k, a⟩ := p
  cases k <;> simp [pixelsPtr, CreateRGBSurfaceFrom, GoKind.name]

/-- Claim C5: the factories built on `wrap` (`SetVideoMode`, `Load`,
`CreateRGBSurface`, `DisplayFormat`, `Zoom`) turn a null native result
into a nil handle, but `CreateRGBSurfaceFrom` then executes
`s.gcPixels = pixels` on that nil handle, a runtime fault — evaluated
here at a null native result for a well-shaped slice argument. -/
theorem createRGBSurfaceFrom_null_native_fault :
    (CreateRGBSurfaceFrom ⟨GoKind.slice, 100⟩ 4 4 32 16 0 0 0 0 none).2
        = Except.error goNilDerefMsg
    ∧ wrap none = none
    ∧ Load none = none
    ∧ CreateRGBSurface none = none
    ∧ Surface.Zoom sEx none = none :=
  ⟨rfl, rfl, rfl, rfl, rfl⟩

/-- Claim C7, confirmed: for a handle whose foreign pointer is
non-null, `reload()` succeeds and leaves every shadow field equal to
the corresponding field of the foreign surface struct. -/
theorem reload_matches_foreign (s : Surface) (c : CSurface)
    (h : s.cSurface = some c) :
    ∃ s', s.reload = some s'
      ∧ s'.Flags = c.flags ∧ s'.Format = c.format ∧ s'.W = c.w ∧ s'.H = c.h
      ∧ s'.Pitch = c.pitch ∧ s'.Pixels = c.pixels ∧ s'.Offset = c.offset := by
  refine ⟨s.reloadFrom c, ?_, rfl, rfl, rfl, rfl, rfl, rfl, rfl⟩
  simp [Surface.reload, h]

/-- Witness for C7 at the sample handle. -/
theorem reload_matches_foreign_witness :
    ∃ s', sEx.reload = some s'
      ∧ s'.Flags = cEx.flags ∧ s'.Format = cEx.format ∧ s'.W = cEx.w
      ∧ s'.H = cEx.h ∧ s'.Pitch = cEx.pitch ∧ s'.Pixels = cEx.pixels
      ∧ s'.Offset = cEx.offset :=
  reload_matches_foreign sEx cEx rfl

/-- Claim C8, confirmed: `SetVideoMode` replaces the active-display
slot with the handle wrapped from the native result unconditionally —
nil when the native call returned null, otherwise a fresh populated
handle — without modifying (in particular without destroying) any
previously allocated surface; `GetVideoSurface` then returns exactly
the new occupant. -/
theorem setVideoMode_slot (st : SdlState) (screen : Option CSurface) :
    (st.SetVideoMode screen).1.GetVideoSurface = (st.SetVideoMode screen).2
    ∧ (screen = none → (st.SetVideoMode screen).2 = none)
    ∧ (∀ c, screen = some c →
        (st.SetVideoMode screen).2 = some st.heap.length
        ∧ (st.SetVideoMode screen).1.heap.get? st.heap.length
            = some (Surface.SetCSurface zeroSurface c))
    ∧ (∀ i, i < st.heap.length →
        (st.SetVideoMode screen).1.heap.get? i = st.heap.get? i) := by
  refine ⟨?_, ?_, ?_, ?_⟩
  · cases screen <;> rfl
  · intro hn
    subst hn
    rfl
  · intro c hc
    subst hc
    exact ⟨rfl, List.get?_concat_length _ _⟩
  · intro i hi
    cases screen
    · rfl
    · exact List.get?_append hi
